import Mathlib

/-!
Shallow embedding of the deepcast audio pipeline
(`src/models/audio_config.py`, `src/services/audio_service.py`)
and verification of the specification claims about it.

Audio segments (pydub `AudioSegment`) are modelled as lists of rational
samples; `len` is `List.length` (one unit per millisecond of the pydub
model).  Gain application in decibels is parameterised by a dB-to-amplitude
conversion function `g : ℚ → ℚ`, since only the decibel argument matters to
the claims.  Network effects (HTTP responses, chunk streams, provider
outcomes) are passed in as explicit data.
-/

namespace Deepcast

/-! ## Constants (audio_service.py lines 25-34, audio_config.py lines 25-28) -/

def MAX_RETRIES : Nat := 3
def MAX_TRANSCRIPT_LENGTH : Nat := 10000
def MAX_FILE_SIZE : Nat := 100 * 1024 * 1024
def MAX_TURN_PREFIX_LENGTH : Nat := 50
def MAX_SPEAKERS : Nat := 5
def ALLOWED_FORMATS : List String := ["mp3", "wav", "ogg"]

/-- Python `s.lower()`, computed on the list-of-characters view of the
string. -/
def lowerStr (s : String) : String :=
  String.mk (s.toList.map Char.toLower)

/-- Python `s.startswith(pre)`. -/
def strStartsWith (s pre : String) : Bool :=
  pre.toList.isPrefixOf s.toList

/-- Python `not s.strip()`: the string is empty or all whitespace. -/
def isBlank (s : String) : Bool :=
  s.toList.all Char.isWhitespace

/-! ## Enumerations (audio_config.py) -/

inductive VoiceEmotion
  | neutral | happy | excited | serious | professional | friendly | calm
deriving DecidableEq, Repr

inductive BackgroundMusicType
  | none | soft_piano | ambient | jazz | electronic | nature | cinematic
deriving DecidableEq, Repr

/-- The `MUSIC_URLS` dictionary: `.get` on it, as used in `_process_audio`. -/
def musicUrlsGet : BackgroundMusicType → Option String
  | .none => Option.none
  | .soft_piano =>
      some "https://cdn.pixabay.com/download/audio/2022/02/22/audio_d1718ab41b.mp3"
  | .ambient =>
      some "https://cdn.pixabay.com/download/audio/2022/03/15/audio_c8c8395646.mp3"
  | .jazz =>
      some "https://cdn.pixabay.com/download/audio/2022/05/27/audio_1808fbf07a.mp3"
  | .electronic =>
      some "https://cdn.pixabay.com/download/audio/2022/03/10/audio_c8695a1ecd.mp3"
  | .nature =>
      some "https://cdn.pixabay.com/download/audio/2021/11/25/audio_00fa5593f3.mp3"
  | .cinematic =>
      some "https://cdn.pixabay.com/download/audio/2022/05/17/audio_69a61cd6d9.mp3"

def AVAILABLE_VOICES : List String :=
  [ "Jennifer (English (US)/American)"
  , "Rachel (English (US)/American)"
  , "Dexter (English (US)/American)"
  , "Patrick (English (US)/American)" ]

/-- Model of `VOICE_PAIRS.get(voice)` (audio_config.py lines 64-69). -/
def voicePairsGet : String → Option String
  | "Jennifer (English (US)/American)" => some "Rachel (English (US)/American)"
  | "Rachel (English (US)/American)" => some "Jennifer (English (US)/American)"
  | "Dexter (English (US)/American)" => some "Patrick (English (US)/American)"
  | "Patrick (English (US)/American)" => some "Dexter (English (US)/American)"
  | _ => Option.none

/-- The `VOICE_LANGUAGES` table (audio_config.py lines 52-55), as an association list. -/
def VOICE_LANGUAGES : List (String × String) :=
  [("en-US", "English (US)/American"), ("en-GB", "English (UK)/British")]

/-! ## Speaker and audio configuration (audio_config.py) -/

structure SpeakerConfig where
  voice : String
  emotion : VoiceEmotion := .neutral
  turn_prefix : String := ""
  fallback_voice : Option String := Option.none
deriving DecidableEq, Repr

/-- Model of `SpeakerConfig.__post_init__` (audio_config.py lines 79-105): validates
the fields and auto-fills `fallback_voice` from `VOICE_PAIRS` when absent.
Returns the (possibly updated) record, or an error. -/
def mkSpeakerConfig (s : SpeakerConfig) : Except String SpeakerConfig :=
  if isBlank s.voice then .error "Voice must be a non-empty string"
  else if s.voice ∉ AVAILABLE_VOICES then .error "Invalid voice"
  else if (SpeakerConfig.turn_prefix s).length > MAX_TURN_PREFIX_LENGTH then
    .error "Turn prefix too long"
  else
    match s.fallback_voice with
    | Option.none => .ok { s with fallback_voice := voicePairsGet s.voice }
    | some fv =>
        if fv ∉ AVAILABLE_VOICES then .error "Invalid fallback voice"
        else .ok s

/-- Speakers are a `dict` in the source; insertion order is observable, so we
model the dictionary as an association list of (speaker id, config). -/
structure AudioConfig where
  speakers : List (String × SpeakerConfig)
  background_music : BackgroundMusicType := .none
  music_volume : ℚ := 1/10
  save_locally : Bool := false
  output_format : String := "mp3"
deriving DecidableEq, Repr

/-- The primary voices of the speakers, in dictionary order. -/
def voicesList (c : AudioConfig) : List String :=
  c.speakers.map (fun p => p.2.voice)

/-- The duplicate-voice loop of `AudioConfig.__post_init__`
(audio_config.py lines 127-142): the voice of each speaker must not already
be in `used_voices`, i.e. the list of primary voices has no duplicate. -/
def noDuplicateVoices (c : AudioConfig) : Bool :=
  decide (voicesList c).Nodup

/-- Model of `AudioConfig.__post_init__` (audio_config.py lines 116-166) as a
validity check on an already-built record whose speakers each passed
`SpeakerConfig.__post_init__`. -/
def audioConfigValid (c : AudioConfig) : Bool :=
  !c.speakers.isEmpty
  && c.speakers.length ≤ MAX_SPEAKERS
  && c.speakers.all (fun p =>
       !(isBlank p.1) && p.1.length ≤ 50
       && (mkSpeakerConfig p.2 matches .ok _))
  && noDuplicateVoices c
  && (0 ≤ c.music_volume && c.music_volume ≤ 1)
  && lowerStr c.output_format ∈ ALLOWED_FORMATS

/-- Python `pat in s` on strings: `pat` occurs as a contiguous substring. -/
def containsSub (pat : List Char) : List Char → Bool
  | [] => pat.isEmpty
  | c :: rest => pat.isPrefixOf (c :: rest) || containsSub pat rest

/-- Model of `AudioConfig.get_voice_language` (audio_config.py lines 168-173):
first language whose name is a substring of the voice. -/
def getVoiceLanguage (voice : String) : Option String :=
  (VOICE_LANGUAGES.find? (fun p => containsSub p.2.toList voice.toList)).map
    (fun p => p.1)

/-- Model of `AudioConfig.validate_voice_compatibility` (audio_config.py lines
175-179): the set of speaker-voice languages is a single non-`None`
language. -/
def validateVoiceCompatibility (c : AudioConfig) : Bool :=
  let langs := ((c.speakers.map (fun p => getVoiceLanguage p.2.voice)).dedup)
  langs.length == 1 && Option.none ∉ langs

/-! ## Service-side validation (audio_service.py lines 68-102) -/

/-- Model of `_validate_transcript`: non-blank, bounded length, and free of the
harmful patterns matched by the case-insensitive regex. -/
def validateTranscript (t : String) : Bool :=
  !(isBlank t)
  && t.length ≤ MAX_TRANSCRIPT_LENGTH
  && !((lowerStr t).toList.contains '<'
       || (lowerStr t).toList.contains '>'
       || containsSub "javascript:".toList (lowerStr t).toList
       || containsSub "data:".toList (lowerStr t).toList)

/-- Model of `_validate_config` (audio_service.py lines 83-102). -/
def validateConfig (c : AudioConfig) : Bool :=
  !c.speakers.isEmpty
  && (0 ≤ c.music_volume && c.music_volume ≤ 1)
  && lowerStr c.output_format ∈ ALLOWED_FORMATS
  && validateVoiceCompatibility c

/-! ## File download (`_download_file`, audio_service.py lines 121-196)

Network data is passed in explicitly: whether the HEAD and GET requests
succeed, the HEAD response's content type and optional content-length
header, and the body the server would stream as a list of chunk sizes.
The outcome records the boolean result together with which files remain
on disk.

One point decides the streaming stage: line 166 runs
`async for chunk in response.iter_content(chunk_size=CHUNK_SIZE)`, but
`iter_content` of a `requests` response is a synchronous generator with
no `__aiter__`, so the `async for` raises `TypeError` before the first
chunk is consumed.  The `TypeError` is raised inside the inner `try`
(after `open(temp_path, 'wb')` has created the temporary file) and is
caught by the `except Exception` branch at lines 182-186, which removes
the temporary file and returns `False`.  Hence the in-loop ceiling check
(lines 168-170), the byte-count verification (lines 173-176) and
`os.replace` (line 179) are unreachable, and the body `chunks` is never
consumed: every call that reaches the streaming stage fails with the
temporary file deleted and no destination file created. -/

structure DlResult where
  ok : Bool
  tmpExists : Bool
  destExists : Bool
deriving DecidableEq, Repr

/-- Model of `_download_file`.  `contentLength = Option.none` models a HEAD response
with no `content-length` header, in which case the source reads the header
with default `0`.  `chunks` is the body the server would stream; the
streaming stage never consumes it (see the section comment above). -/
def downloadFile (url : String) (headOk : Bool) (contentType : String)
    (contentLength : Option Nat) (getOk : Bool) (_chunks : List Nat) :
    DlResult :=
  if !(strStartsWith url "http://" || strStartsWith url "https://") then
    ⟨false, false, false⟩
  else if !headOk then ⟨false, false, false⟩
  else if !(strStartsWith contentType "audio/"
            || strStartsWith contentType "application/octet-stream") then
    ⟨false, false, false⟩
  else
    let declared := contentLength.getD 0
    if declared > MAX_FILE_SIZE then ⟨false, false, false⟩
    else if !getOk then ⟨false, false, false⟩
    else
      -- Lines 161-186: `open(temp_path, 'wb')` creates the temporary
      -- file; line 166's `async for` then raises `TypeError` at once and
      -- the except branch (lines 182-186) deletes the temporary file and
      -- returns `False`, whatever the body held.
      ⟨false, false, false⟩

/-! ## TTS request with retries (`_make_tts_request`, audio_service.py
lines 198-247)

The external provider is modelled as `provider : Nat → Bool`: whether the
single request made at recursion depth `retry` succeeds (each call makes
exactly one request, so the depth is the 0-based attempt index).  The result
is the trace of configurations used at each provider invocation together
with `some` final configuration on success or `none` on failure. -/

/-- Lines 241-243: `speaker.voice, speaker.fallback_voice =
speaker.fallback_voice, speaker.voice`, guarded by Python truthiness of
`speaker.fallback_voice` (skipped for `None` and for the empty string). -/
def swapSpeaker (s : SpeakerConfig) : SpeakerConfig :=
  match s.fallback_voice with
  | Option.none => s
  | some fv =>
      if fv = "" then s
      else { s with voice := fv, fallback_voice := some s.voice }

/-- The in-place swap applied to every speaker of the config. -/
def swapVoices (c : AudioConfig) : AudioConfig :=
  { c with speakers := c.speakers.map (fun p => (p.1, swapSpeaker p.2)) }

/-- Model of `_make_tts_request transcript config retry`.  Validation failure
returns `None` immediately with no provider call; a failed provider call
retries while `retry < MAX_RETRIES`, swapping voices first when
`retry > 0`. -/
def makeTtsRequest (provider : Nat → Bool) (transcript : String)
    (config : AudioConfig) (retry : Nat) :
    List AudioConfig × Option AudioConfig :=
  if !(validateTranscript transcript && validateConfig config) then
    ([], Option.none)
  else if provider retry then ([config], some config)
  else if h : retry < MAX_RETRIES then
    let config' := if retry > 0 then swapVoices config else config
    let rest := makeTtsRequest provider transcript config' (retry + 1)
    (config :: rest.1, rest.2)
  else ([config], Option.none)
termination_by MAX_RETRIES - retry
decreasing_by omega

/-! ## Audio processing (`_process_audio`, audio_service.py lines 249-331)

An `AudioSegment` is a list of rational samples; `len` corresponds to
`List.length`.  pydub operations used by the source:
`a + b` is concatenation (`++`), `seg[:n]` is `List.take n`,
`seg - x` is `apply_gain (-x)` (each sample scaled by the amplitude ratio
of the decibel change, via the conversion parameter `g`), and
`a.overlay b` mixes `b` additively onto `a` from offset 0, keeping the
length of `a`. -/

/-- Model of `seg.apply_gain db`, with `g` the dB-to-amplitude-ratio conversion. -/
def applyGain (g : ℚ → ℚ) (db : ℚ) (s : List ℚ) : List ℚ :=
  s.map (fun x => x * g db)

/-- Model of `a.overlay(b)` at position 0: additive mix over the common prefix, the
remainder of `a` untouched; the result has the length of `a`. -/
def overlay (a b : List ℚ) : List ℚ :=
  List.zipWith (· + ·) a b ++ a.drop b.length

/-- The music loop of lines 278-279, `while len(music) < len(voice_audio):
music = music + music`, run with explicit fuel: `none` means the iteration
budget ran out (in the source, the loop is still running). -/
def loopMusicFuel : Nat → List ℚ → Nat → Option (List ℚ)
  | 0, _, _ => Option.none
  | fuel + 1, m, target =>
      if m.length < target then loopMusicFuel fuel (m ++ m) target
      else some m

/-- Outcome of `_process_audio`.  `success` records the samples of the
exported track, the music component that was overlaid (if any), the path
the export was written to, and the value the function returns.
`divergent` marks the music loop exceeding the modelled fuel. -/
inductive ProcResult
  | failure
  | divergent
  | success (exported : List ℚ) (musicComp : Option (List ℚ))
      (exportedPath : String) (returned : String)
deriving DecidableEq, Repr

/-- Outcome of the background-music block (lines 264-288): abort the whole
job, still inside the loop, or proceed to the export with an optional
gained music component to overlay. -/
inductive MusicStage
  | abort
  | looping
  | proceed (comp : Option (List ℚ))
deriving DecidableEq, Repr

/-- Lines 264-288: fetch, loop, trim and attenuate the background music. -/
def musicStage (g : ℚ → ℚ) (config : AudioConfig) (musicDlOk : Bool)
    (music : List ℚ) (voiceLen : Nat) (fuel : Nat) : MusicStage :=
  if config.background_music = BackgroundMusicType.none then
    .proceed Option.none
  else
    match musicUrlsGet config.background_music with
    | Option.none => .abort            -- lines 266-268: `return None`
    | some _ =>
        if musicDlOk then
          match loopMusicFuel fuel music voiceLen with
          | Option.none => .looping
          | some looped =>
              let trimmed := looped.take voiceLen        -- line 282
              -- line 285: `music - (20 - (20 * config.music_volume))`
              .proceed
                (some (applyGain g (-(20 - 20 * config.music_volume))
                  trimmed))
        else .proceed Option.none      -- fetch failed: continue without

/-- Model of `_process_audio voice_url config`.  `voiceDlOk`/`musicDlOk` are the
outcomes of the two `_download_file` calls, `voice`/`music` the decoded
segments, `tempDir` the temporary directory, `fuel` the music-loop budget. -/
def processAudio (g : ℚ → ℚ) (voiceUrl : String) (config : AudioConfig)
    (voiceDlOk : Bool) (voice : List ℚ) (musicDlOk : Bool) (music : List ℚ)
    (tempDir : String) (fuel : Nat) : ProcResult :=
  if !voiceDlOk then .failure          -- lines 256-257
  else
    match musicStage g config musicDlOk music voice.length fuel with
    | .abort => .failure
    | .looping => .divergent
    | .proceed out =>
        let mixed := match out with
          | Option.none => voice
          | some gained => overlay voice gained          -- line 286
        let fmt := if lowerStr config.output_format ∈ ALLOWED_FORMATS then
            lowerStr config.output_format else "mp3"     -- lines 291-293
        let outputPath := tempDir ++ "/output." ++ fmt   -- line 295
        -- line 323: `return voice_url  # For now, return original URL`
        .success mixed out outputPath voiceUrl

/-! ## Concrete fixtures used by witnesses and counterexamples -/

/-- One tenth, in `Rat` constructor normal form so that comparisons against
it reduce inside the kernel (the Python default `music_volume = 0.1`). -/
def qTenth : ℚ := ⟨1, 10, by norm_num, Nat.coprime_one_left 10⟩

/-- One half, in `Rat` constructor normal form (a 50 % music volume). -/
def qHalf : ℚ := ⟨1, 2, by norm_num, Nat.coprime_one_left 2⟩

def vJennifer : String := "Jennifer (English (US)/American)"
def vRachel : String := "Rachel (English (US)/American)"
def vDexter : String := "Dexter (English (US)/American)"

/-- A two-speaker configuration as built by the CLI defaults: primary
voices Jennifer/Rachel, fallbacks auto-filled from `VOICE_PAIRS`. -/
def cfgMain : AudioConfig :=
  { speakers :=
      [ ("speaker1", { voice := vJennifer, fallback_voice := some vRachel })
      , ("speaker2", { voice := vRachel, fallback_voice := some vJennifer }) ]
  , background_music := .none
  , music_volume := qTenth
  , save_locally := false
  , output_format := "mp3" }

/-- The same two speakers with jazz background music at half volume. -/
def cfgJazz : AudioConfig :=
  { cfgMain with background_music := .jazz, music_volume := qHalf }

/-- Two speakers with distinct primary voices but the same explicitly
chosen fallback voice; every field passes construction-time validation. -/
def cfgSharedFallback : AudioConfig :=
  { speakers :=
      [ ("speaker1", { voice := vJennifer, fallback_voice := some vDexter })
      , ("speaker2", { voice := vRachel, fallback_voice := some vDexter }) ]
  , background_music := .none
  , music_volume := qTenth
  , save_locally := false
  , output_format := "mp3" }

def goodTranscript : String := "Speaker 1: Hello and welcome to the show."

/-! ## Helper lemmas -/

/-- Every background-music type other than `none` has a URL in
`MUSIC_URLS`. -/
theorem musicUrlsGet_isSome (b : BackgroundMusicType)
    (hb : b ≠ BackgroundMusicType.none) : (musicUrlsGet b).isSome := by
  cases b <;> simp_all [musicUrlsGet]

/-- The doubling loop finishes within `fuel` steps as soon as
`target ≤ fuel + length`: each iteration of a non-empty segment at least
increments the length while spending one unit of fuel. -/
theorem loopMusicFuel_isSome (fuel : Nat) :
    ∀ (m : List ℚ) (target : Nat), 0 < m.length →
      target ≤ fuel + m.length → (loopMusicFuel (fuel + 1) m target).isSome := by
  induction fuel with
  | zero =>
      intro m target hm ht
      simp only [loopMusicFuel]
      have : ¬ m.length < target := by omega
      simp [this]
  | succ n ih =>
      intro m target hm ht
      simp only [loopMusicFuel]
      by_cases h : m.length < target
      · simp only [h, if_true]
        exact ih (m ++ m) target (by simp; omega) (by simp; omega)
      · simp [h]

/-- When the loop finishes, the resulting segment is at least as long as
the target (the loop guard has become false). -/
theorem loopMusicFuel_length (fuel : Nat) :
    ∀ (m : List ℚ) (target : Nat) (m' : List ℚ),
      loopMusicFuel fuel m target = some m' → target ≤ m'.length := by
  induction fuel with
  | zero => intro m target m' h; simp [loopMusicFuel] at h
  | succ n ih =>
      intro m target m' h
      simp only [loopMusicFuel] at h
      by_cases hlt : m.length < target
      · rw [if_pos hlt] at h
        exact ih (m ++ m) target m' h
      · rw [if_neg hlt] at h
        cases h
        omega

/-- A zero-length segment never reaches a positive target: the loop body
leaves it empty, so the loop runs forever regardless of fuel. -/
theorem loopMusicFuel_nil (fuel : Nat) :
    ∀ target : Nat, 0 < target →
      loopMusicFuel fuel ([] : List ℚ) target = Option.none := by
  induction fuel with
  | zero => intro target _; simp [loopMusicFuel]
  | succ n ih =>
      intro target ht
      simp only [loopMusicFuel, List.append_nil]
      rw [if_pos (by simpa using ht)]
      exact ih target ht

/-- Additive-mix characterisation of `overlay` on the overlapping prefix. -/
theorem overlay_getD (a b : List ℚ) (i : Nat) (h1 : i < a.length)
    (h2 : i < b.length) :
    (overlay a b).getD i 0 = a.getD i 0 + b.getD i 0 := by
  have hz : i < (List.zipWith (· + ·) a b).length := by
    simp [List.length_zipWith]; omega
  have hov : i < (overlay a b).length := by
    simp only [overlay, List.length_append]; omega
  rw [List.getD_eq_getElem _ _ hov, List.getD_eq_getElem _ _ h1,
    List.getD_eq_getElem _ _ h2]
  simp only [overlay]
  rw [List.getElem_append_left hz]
  simp [List.getElem_zipWith]

/-- Length of `overlay`: the first segment's length. -/
theorem overlay_length (a b : List ℚ) (h : b.length ≤ a.length) :
    (overlay a b).length = a.length := by
  simp [overlay, List.length_zipWith]
  omega

/-- Pointwise characterisation of `applyGain`. -/
theorem applyGain_getD (g : ℚ → ℚ) (db : ℚ) (s : List ℚ) (i : Nat)
    (h : i < s.length) :
    (applyGain g db s).getD i 0 = s.getD i 0 * g db := by
  have hm : i < (applyGain g db s).length := by simp [applyGain]; omega
  rw [List.getD_eq_getElem _ _ hm, List.getD_eq_getElem _ _ h]
  simp [applyGain]

/-! ## Claim C4 — abort outcome of `_download_file` -/

/-- C4: for a download whose body would exceed the 100 MB ceiling, or
whose byte count would mismatch a positive declared content-length, the
transport reports failure, the temporary sibling file `<destination>.tmp`
is deleted, and no destination file remains on disk.  The outcome holds,
but not through the documented in-loop checks: line 166's `async for`
over the synchronous `iter_content` generator raises `TypeError` before
the first chunk, and the except branch (lines 182-186) deletes the
temporary file and returns `False` — for these bodies as for every
other. -/
theorem download_abort_cleans_up (url ct : String) (cl : Option Nat)
    (chunks : List Nat)
    (hu : (strStartsWith url "http://" || strStartsWith url "https://") = true)
    (hct : (strStartsWith ct "audio/"
            || strStartsWith ct "application/octet-stream") = true)
    (hcl : cl.getD 0 ≤ MAX_FILE_SIZE)
    (_hbad : MAX_FILE_SIZE < chunks.sum
             ∨ (0 < cl.getD 0 ∧ chunks.sum ≠ cl.getD 0)) :
    downloadFile url true ct cl true chunks = ⟨false, false, false⟩ := by
  simp only [downloadFile, hu, hct, Bool.not_true, Bool.false_eq_true,
    if_false]
  rw [if_neg (by omega : ¬ cl.getD 0 > MAX_FILE_SIZE)]

/-- C4 witness: a download whose single chunk exceeds the 100 MB ceiling
(declared content-length 1000, below the ceiling) fails with the
temporary file deleted and no destination file. -/
theorem download_abort_cleans_up_witness :
    downloadFile "https://cdn.example.com/big.mp3" true "audio/mpeg"
      (some 1000) true [MAX_FILE_SIZE + 1] = ⟨false, false, false⟩ :=
  download_abort_cleans_up "https://cdn.example.com/big.mp3" "audio/mpeg"
    (some 1000) [MAX_FILE_SIZE + 1] (by decide) (by decide) (by decide)
    (Or.inl (by decide))

/-! ## Claim C10 — missing content-length header -/

/-- C10, code bug: the declared size does default to 0 without a
`content-length` header and the checks at lines 146-149 and 173-180 read
as the claim says, but the claimed acceptance never happens: line 166's
`async for` over the synchronous `iter_content` generator raises
`TypeError` before the first chunk, so the byte-count verification and
`os.replace` (line 179) are unreachable.  At the failing input — a
header-less, audio-typed download whose body stays under the ceiling,
which the claim says is accepted — the transport rejects the download
with the temporary file deleted; more generally, no call of
`_download_file` ever creates the destination file. -/
theorem download_never_accepted :
    downloadFile "https://cdn.example.com/music.mp3" true "audio/mpeg"
      Option.none true [8192, 8192] = ⟨false, false, false⟩
    ∧ ∀ (url ct : String) (headOk getOk : Bool) (cl : Option Nat)
        (chunks : List Nat),
        (downloadFile url headOk ct cl getOk chunks).destExists = false := by
  constructor
  · decide
  · intro url ct headOk getOk cl chunks
    unfold downloadFile
    repeat' split
    all_goals simp

/-! ## Claim C7 — distinct-voices invariant -/

/-- C7, counterexample: a configuration whose construction succeeds
(distinct primary voices, every field valid) in which two speakers name
the same explicit fallback voice; after the retry-side-effect voice swap
the two speakers share a voice, so the invariant is NOT preserved by the
swap. -/
theorem swap_duplicate_voice_counterexample :
    audioConfigValid cfgSharedFallback = true
    ∧ noDuplicateVoices (swapVoices cfgSharedFallback) = false :=
  ⟨by decide, by decide⟩

/-- C7, amended: construction (`AudioConfig.__post_init__`) rejects
duplicate voices, so every config whose construction succeeded has
pairwise-distinct primary voices; the voice↔fallback swap, however, does
not preserve the invariant in general. -/
theorem config_valid_voices_nodup (c : AudioConfig)
    (h : audioConfigValid c = true) : (voicesList c).Nodup := by
  simp only [audioConfigValid, noDuplicateVoices, Bool.and_eq_true,
    decide_eq_true_eq] at h
  exact h.1.1.2

/-- C7 witness: the standard two-speaker configuration is valid and its
voices are therefore distinct. -/
theorem config_valid_voices_nodup_witness : (voicesList cfgMain).Nodup :=
  config_valid_voices_nodup cfgMain (by decide)

/-! ## Claim C2 — number of provider attempts -/

/-- Trace-length bound for `_make_tts_request`: starting at recursion
depth `retry`, at most `MAX_RETRIES - retry + 1` further provider
invocations happen. -/
theorem makeTtsRequest_trace_le (provider : Nat → Bool) (transcript : String) :
    ∀ (n : Nat) (config : AudioConfig) (retry : Nat),
      MAX_RETRIES - retry ≤ n →
      (makeTtsRequest provider transcript config retry).1.length ≤ n + 1 := by
  intro n
  induction n with
  | zero =>
      intro c r h
      rw [makeTtsRequest]
      split
      · simp
      · split
        · simp
        · rw [dif_neg (by simp only [MAX_RETRIES] at h ⊢; omega)]
          simp
  | succ n ih =>
      intro c r h
      rw [makeTtsRequest]
      split
      · simp
      · split
        · simp
        · split
          · dsimp only
            simp only [List.length_cons]
            have hrec := ih (if r > 0 then swapVoices c else c) (r + 1)
              (by simp only [MAX_RETRIES] at h ⊢; omega)
            omega
          · simp

/-- C2, counterexample: against a provider that always fails, the client
makes a FOURTH provider invocation (the initial attempt plus
`MAX_RETRIES = 3` retries), contradicting "at most 3 attempts in total /
no fourth provider invocation ever occurs". -/
theorem tts_four_attempts_counterexample :
    (makeTtsRequest (fun _ => false) goodTranscript cfgMain 0).1.length = 4 := by
  have h1 : validateTranscript goodTranscript = true := by decide
  have h2 : validateConfig cfgMain = true := by decide
  have h3 : validateConfig (swapVoices cfgMain) = true := by decide
  have h4 : validateConfig (swapVoices (swapVoices cfgMain)) = true := by decide
  simp [makeTtsRequest, h1, h2, h3, h4, MAX_RETRIES]

/-- C2, amended: for every transcript and config the synthesis client
makes at most 4 attempts in total (one initial attempt plus up to
`MAX_RETRIES = 3` retries) against the provider before reporting failure;
no fifth provider invocation ever occurs. -/
theorem tts_at_most_four_attempts (provider : Nat → Bool)
    (transcript : String) (config : AudioConfig) :
    (makeTtsRequest provider transcript config 0).1.length ≤ 4 :=
  makeTtsRequest_trace_le provider transcript 3 config 0 (by decide)

/-! ## Claim C3 — voice rotation across retries -/

/-- C3, counterexample: with a provider that fails twice then succeeds,
the client does succeed on the third attempt, but attempt 2 used the
PRIMARY voices again (the swap is guarded by `retry > 0`, so it first
fires only after the second failure), and the returned configuration has
every speaker's voice/fallback swapped — NOT restored to the original —
contradicting the claimed primary → fallback → primary rotation. -/
theorem tts_rotation_counterexample :
    makeTtsRequest (fun i => i == 2) goodTranscript cfgMain 0
      = ([cfgMain, cfgMain, swapVoices cfgMain], some (swapVoices cfgMain))
    ∧ swapVoices cfgMain ≠ cfgMain := by
  constructor
  · have h1 : validateTranscript goodTranscript = true := by decide
    have h2 : validateConfig cfgMain = true := by decide
    have h3 : validateConfig (swapVoices cfgMain) = true := by decide
    simp [makeTtsRequest, h1, h2, h3, MAX_RETRIES]
  · decide

/-- C3, amended: the in-place voice↔fallback swap happens only when the
failed attempt had `retry > 0`, i.e. before attempts 3 and 4: attempt 2
reuses each speaker's primary voice and attempt 3 uses the fallback
voices.  If the provider fails twice then succeeds, the client returns
success on the third attempt with every speaker's voice and
fallback_voice swapped (fallback in use) — the fields are not restored. -/
theorem tts_fail_twice_then_succeed (provider : Nat → Bool)
    (transcript : String) (config : AudioConfig)
    (ht : validateTranscript transcript = true)
    (hc : validateConfig config = true)
    (hcs : validateConfig (swapVoices config) = true)
    (h0 : provider 0 = false) (h1 : provider 1 = false)
    (h2 : provider 2 = true) :
    makeTtsRequest provider transcript config 0
      = ([config, config, swapVoices config], some (swapVoices config)) := by
  simp [makeTtsRequest, ht, hc, hcs, h0, h1, h2, MAX_RETRIES]

/-- C3 witness: a concrete provider that fails on the first two attempts
and succeeds from the third onwards, run on the jazz configuration. -/
theorem tts_fail_twice_then_succeed_witness :
    makeTtsRequest (fun i => 2 ≤ i) goodTranscript cfgJazz 0
      = ([cfgJazz, cfgJazz, swapVoices cfgJazz], some (swapVoices cfgJazz)) :=
  tts_fail_twice_then_succeed (fun i => 2 ≤ i) goodTranscript cfgJazz
    (by decide) (by decide) (by decide) (by decide) (by decide) (by decide)

/-! ## Claim C9 — termination of the music-doubling loop -/

/-- C9: the doubling loop of `_process_audio` terminates for every decoded
music track of strictly positive length (a fuel budget linear in the voice
length suffices), and positive length is a necessary precondition: a
zero-length music track below a positive voice length keeps the loop
running forever — no fuel budget ever completes it. -/
theorem music_loop_termination :
    (∀ (fuel : Nat) (m : List ℚ) (target : Nat), 0 < m.length →
        target ≤ fuel + m.length →
        (loopMusicFuel (fuel + 1) m target).isSome = true)
    ∧ (∀ (fuel target : Nat), 0 < target →
        loopMusicFuel fuel ([] : List ℚ) target = Option.none) :=
  ⟨fun fuel m target hm ht => loopMusicFuel_isSome fuel m target hm ht,
   fun fuel target ht => loopMusicFuel_nil fuel target ht⟩

/-- C9 witness: a one-sample track reaches a length-3 target within the
budget, while the empty track never does. -/
theorem music_loop_termination_witness :
    (loopMusicFuel (2 + 1) [(1 : ℚ)] 3).isSome = true
    ∧ loopMusicFuel 5 ([] : List ℚ) 3 = Option.none :=
  ⟨music_loop_termination.1 2 [(1 : ℚ)] 3 (by decide) (by decide),
   music_loop_termination.2 5 3 (by decide)⟩

/-! ## Claim C5 — loop-and-trim music duration -/

/-- C5: when background music is requested and fetched successfully, the
music track is repeat-concatenated until it reaches the voice track's
length and trimmed to exactly that length: for every voice track and every
shorter music track of positive length, the pipeline reaches the export
with an overlaid music component of exactly the voice track's length. -/
theorem processAudio_music_duration (g : ℚ → ℚ) (voiceUrl : String)
    (config : AudioConfig) (voice music : List ℚ) (tempDir : String)
    (hbg : config.background_music ≠ BackgroundMusicType.none)
    (hpos : 0 < music.length)
    (_hshort : music.length < voice.length) :
    ∃ mc path,
      processAudio g voiceUrl config true voice true music tempDir
        (voice.length + 1)
        = ProcResult.success (overlay voice mc) (some mc) path voiceUrl
      ∧ mc.length = voice.length := by
  obtain ⟨url, hurl⟩ := Option.isSome_iff_exists.mp (musicUrlsGet_isSome _ hbg)
  obtain ⟨looped, hl⟩ := Option.isSome_iff_exists.mp
    (loopMusicFuel_isSome voice.length music voice.length hpos (by omega))
  have hlen := loopMusicFuel_length (voice.length + 1) music voice.length
    looped hl
  refine ⟨applyGain g (-(20 - 20 * config.music_volume))
      (looped.take voice.length),
    tempDir ++ "/output." ++ (if lowerStr config.output_format ∈ ALLOWED_FORMATS
      then lowerStr config.output_format else "mp3"), ?_, ?_⟩
  · simp [processAudio, musicStage, hbg, hurl, hl]
  · simp only [applyGain, List.length_map, List.length_take]
    omega

/-- C5 witness: jazz background, a three-sample voice track and a
one-sample music track; the overlaid music component has length 3. -/
theorem processAudio_music_duration_witness :
    ∃ mc path,
      processAudio id "https://fal.media/voice.mp3" cfgJazz true
        [(1 : ℚ), 2, 3] true [(1 : ℚ)] "/tmp/deepcast_demo"
        ([(1 : ℚ), 2, 3].length + 1)
        = ProcResult.success (overlay [(1 : ℚ), 2, 3] mc) (some mc) path
            "https://fal.media/voice.mp3"
      ∧ mc.length = [(1 : ℚ), 2, 3].length :=
  processAudio_music_duration id "https://fal.media/voice.mp3" cfgJazz
    [(1 : ℚ), 2, 3] [(1 : ℚ)] "/tmp/deepcast_demo"
    (by decide) (by decide) (by decide)

/-! ## Claim C6 — graceful degradation when the music fetch fails -/

/-- C6: when background music is requested but its download fails,
`_process_audio` proceeds without music and reaches a successful export
whose audio content is exactly the voice track, instead of failing the
whole job. -/
theorem processAudio_music_dl_failure (g : ℚ → ℚ) (voiceUrl : String)
    (config : AudioConfig) (voice music : List ℚ) (tempDir : String)
    (fuel : Nat)
    (hbg : config.background_music ≠ BackgroundMusicType.none) :
    ∃ path,
      processAudio g voiceUrl config true voice false music tempDir fuel
        = ProcResult.success voice Option.none path voiceUrl := by
  obtain ⟨url, hurl⟩ := Option.isSome_iff_exists.mp (musicUrlsGet_isSome _ hbg)
  exact ⟨tempDir ++ "/output."
      ++ (if lowerStr config.output_format ∈ ALLOWED_FORMATS
          then lowerStr config.output_format else "mp3"),
    by simp [processAudio, musicStage, hbg, hurl]⟩

/-- C6 witness: jazz background with an unreachable music URL (download
fails); the export succeeds and equals the voice track. -/
theorem processAudio_music_dl_failure_witness :
    ∃ path,
      processAudio id "https://fal.media/voice2.mp3" cfgJazz true
        [(5 : ℚ), 6] false [] "/tmp/deepcast_demo2" 0
        = ProcResult.success [(5 : ℚ), 6] Option.none path
            "https://fal.media/voice2.mp3" :=
  processAudio_music_dl_failure id "https://fal.media/voice2.mp3" cfgJazz
    [(5 : ℚ), 6] [] "/tmp/deepcast_demo2" 0 (by decide)

/-! ## Claim C8 — music attenuation and additive overlay -/

/-- C8: the attenuation applied to the music track is exactly
`20 − 20·music_volume` decibels — the gain argument passed to the
dB-to-amplitude conversion is `20·v − 20`, giving −20 dB effective gain at
`v = 0`, 0 dB at `v = 1`, and linear in between — and the overlay is an
additive samplewise mix onto the voice track at offset zero. -/
theorem processAudio_music_gain (g : ℚ → ℚ) (voiceUrl : String)
    (config : AudioConfig) (voice music looped : List ℚ) (tempDir : String)
    (fuel : Nat)
    (hbg : config.background_music ≠ BackgroundMusicType.none)
    (hl : loopMusicFuel fuel music voice.length = some looped) :
    ∃ path,
      processAudio g voiceUrl config true voice true music tempDir fuel
        = ProcResult.success
            (overlay voice (applyGain g (20 * config.music_volume - 20)
              (looped.take voice.length)))
            (some (applyGain g (20 * config.music_volume - 20)
              (looped.take voice.length)))
            path voiceUrl
      ∧ ∀ i, i < voice.length →
          (overlay voice (applyGain g (20 * config.music_volume - 20)
            (looped.take voice.length))).getD i 0
            = voice.getD i 0
              + (looped.take voice.length).getD i 0
                * g (20 * config.music_volume - 20) := by
  have hdb : -(20 - 20 * config.music_volume)
      = 20 * config.music_volume - 20 := by ring
  obtain ⟨url, hurl⟩ := Option.isSome_iff_exists.mp (musicUrlsGet_isSome _ hbg)
  have hlen := loopMusicFuel_length fuel music voice.length looped hl
  refine ⟨tempDir ++ "/output."
      ++ (if lowerStr config.output_format ∈ ALLOWED_FORMATS
          then lowerStr config.output_format else "mp3"), ?_, ?_⟩
  · simp [processAudio, musicStage, hbg, hurl, hl, hdb]
  · intro i hi
    have htake : i < (looped.take voice.length).length := by
      rw [List.length_take]
      exact lt_min hi (lt_of_lt_of_le hi hlen)
    have hglen : i < (applyGain g (20 * config.music_volume - 20)
        (looped.take voice.length)).length := by
      simpa only [applyGain, List.length_map] using htake
    rw [overlay_getD _ _ i hi hglen, applyGain_getD _ _ _ i htake]

/-- C8 witness: jazz configuration at half volume, voice `[1, 2]`, music
already long enough (loop exits immediately with fuel 1). -/
theorem processAudio_music_gain_witness :
    ∃ path,
      processAudio id "https://fal.media/voice3.mp3" cfgJazz true
        [(1 : ℚ), 2] true [(4 : ℚ), 5, 6] "/tmp/deepcast_demo3" 1
        = ProcResult.success
            (overlay [(1 : ℚ), 2] (applyGain id
              (20 * cfgJazz.music_volume - 20)
              ([(4 : ℚ), 5, 6].take [(1 : ℚ), 2].length)))
            (some (applyGain id (20 * cfgJazz.music_volume - 20)
              ([(4 : ℚ), 5, 6].take [(1 : ℚ), 2].length)))
            path "https://fal.media/voice3.mp3"
      ∧ ∀ i, i < [(1 : ℚ), 2].length →
          (overlay [(1 : ℚ), 2] (applyGain id
            (20 * cfgJazz.music_volume - 20)
            ([(4 : ℚ), 5, 6].take [(1 : ℚ), 2].length))).getD i 0
            = [(1 : ℚ), 2].getD i 0
              + ([(4 : ℚ), 5, 6].take [(1 : ℚ), 2].length).getD i 0
                * id (20 * cfgJazz.music_volume - 20) :=
  processAudio_music_gain id "https://fal.media/voice3.mp3" cfgJazz
    [(1 : ℚ), 2] [(4 : ℚ), 5, 6] [(4 : ℚ), 5, 6] "/tmp/deepcast_demo3" 1
    (by decide) (by decide)

/-! ## Claim C1 — the returned reference -/

/-- C1, counterexample: a successful run of the pipeline exports the
post-processed audio to `<tempdir>/output.mp3` but returns the ORIGINAL
voice URL handed to `_process_audio` (line 323, "For now, return original
URL"), which differs from the exported path — the returned reference does
not point to the exported, post-processed audio. -/
theorem returned_reference_counterexample :
    processAudio id "https://fal.media/voice.mp3" cfgMain true [(1 : ℚ)]
      false [] "/tmp/deepcast_demo" 0
      = ProcResult.success [(1 : ℚ)] Option.none
          "/tmp/deepcast_demo/output.mp3" "https://fal.media/voice.mp3"
    ∧ "https://fal.media/voice.mp3" ≠ "/tmp/deepcast_demo/output.mp3" :=
  ⟨by decide, by decide⟩

/-- C1, amended: whenever `_process_audio` succeeds, the post-processed
audio is exported to `<tempdir>/output.<fmt>` inside the temporary
directory, but the value returned is the original voice URL passed in —
the reference to the pre-mix synthesis audio — not the exported path. -/
theorem processAudio_returns_voice_url (g : ℚ → ℚ) (voiceUrl : String)
    (config : AudioConfig) (voiceDlOk : Bool) (voice : List ℚ)
    (musicDlOk : Bool) (music : List ℚ) (tempDir : String) (fuel : Nat)
    (exported : List ℚ) (mc : Option (List ℚ)) (path ret : String)
    (h : processAudio g voiceUrl config voiceDlOk voice musicDlOk music
          tempDir fuel = ProcResult.success exported mc path ret) :
    ret = voiceUrl
    ∧ path = tempDir ++ "/output."
        ++ (if lowerStr config.output_format ∈ ALLOWED_FORMATS
            then lowerStr config.output_format else "mp3") := by
  unfold processAudio at h
  split at h
  · exact absurd h (by simp)
  · split at h
    · exact absurd h (by simp)
    · exact absurd h (by simp)
    · injection h with h1 h2 h3 h4
      exact ⟨h4.symm, h3.symm⟩

/-- C1 witness: a concrete successful run at which the amended theorem
applies. -/
theorem processAudio_returns_voice_url_witness :
    "https://fal.media/voice4.mp3" = "https://fal.media/voice4.mp3"
    ∧ "/tmp/deepcast_demo4/output.mp3" = "/tmp/deepcast_demo4" ++ "/output."
        ++ (if lowerStr cfgMain.output_format ∈ ALLOWED_FORMATS
            then lowerStr cfgMain.output_format else "mp3") :=
  processAudio_returns_voice_url id "https://fal.media/voice4.mp3" cfgMain
    true [(7 : ℚ)] false [] "/tmp/deepcast_demo4" 0 [(7 : ℚ)] Option.none
    "/tmp/deepcast_demo4/output.mp3" "https://fal.media/voice4.mp3"
    (by decide)

end Deepcast
